import Mathlib

/-!
contactshare: the contact-card server of `main.go`.

A shallow embedding of `src/main.go` and the properties its specification
states about it.

Go strings are modelled by Lean `String`s (sequences of Unicode characters);
the line feed is the character `'\n'`.  The process-wide variable `config` is
passed to every handler as an argument.  A handler returns the response it
writes: the status, the headers the handler sets, and the body.  The
standard-library functions the handlers call (`http.Error`, the escapers of
`html/template`) are modelled after the library; the QR encoder and the
process environment are arguments.
-/

namespace ContactShare

/-! ## Data model -/

/-- The configuration record of `main.go` (`type Config struct`). -/
structure Config where
  Name : String
  Bluesky : String
  Email : String
  Github : String
  Whatsapp : String
  Facebook : String
  Phone : String
  BaseURL : String
  Port : String
  deriving DecidableEq, Repr

/-- What a handler writes as the body: text (`w.Write([]byte(s))`,
`fmt.Fprintln`) or raw bytes. -/
inductive Body where
  | text (s : String)
  | bytes (b : List UInt8)
  deriving DecidableEq, Repr

/-- The response written by a handler. -/
structure Response where
  status : Nat
  header : List (String × String)
  body : Body
  deriving DecidableEq, Repr

/-- The text of a response body (empty for a body of raw bytes). -/
def Response.text (r : Response) : String :=
  match r.body with
  | Body.text s => s
  | Body.bytes _ => ""

/-- A record is valid when its two required fields are non-empty. -/
def Config.valid (c : Config) : Prop := c.Name ≠ "" ∧ c.BaseURL ≠ ""

instance (c : Config) : Decidable c.valid := by
  unfold Config.valid; exact inferInstance

/-- The string holds no line feed. -/
def noLineBreak (s : String) : Prop := '\n' ∉ s.data

instance (s : String) : Decidable (noLineBreak s) := by
  unfold noLineBreak; exact inferInstance

/-- No field value of the record holds a line feed. -/
def Config.noLineBreaks (c : Config) : Prop :=
  noLineBreak c.Name ∧ noLineBreak c.Bluesky ∧ noLineBreak c.Email ∧
  noLineBreak c.Github ∧ noLineBreak c.Whatsapp ∧ noLineBreak c.Facebook ∧
  noLineBreak c.Phone ∧ noLineBreak c.BaseURL

instance (c : Config) : Decidable c.noLineBreaks := by
  unfold Config.noLineBreaks; exact inferInstance

/-! ## Text utilities used to state the properties -/

/-- Split a character sequence at every occurrence of `sep`, with `acc` the
piece read so far (as `strings.Split` does for a one-character separator). -/
def splitAcc (sep : Char) : List Char → List Char → List (List Char)
  | acc, [] => [acc]
  | acc, c :: cs => if c = sep then acc :: splitAcc sep [] cs else splitAcc sep (acc ++ [c]) cs

/-- The pieces of `s` between the occurrences of `sep`. -/
def splitAt (sep : Char) (s : String) : List String :=
  (splitAcc sep [] s.data).map String.mk

/-- The lines of a text: its pieces between line feeds. -/
def lines (s : String) : List String := splitAt '\n' s

/-- Go's `strings.HasPrefix`. -/
def hasPrefix (p s : String) : Bool := p.data.isPrefixOf s.data

/-! ## The vCard handler -/

/-- The handler `vcardHandler` of `main.go`: the string builder `vcard` is
threaded through the conditional writes, then written as the body. -/
def vcardHandler (config : Config) : Response :=
  let vcard := ""
  let vcard := vcard ++ "BEGIN:VCARD\nVERSION:3.0\n"
  let vcard := vcard ++ ("FN:" ++ config.Name ++ "\n")
  let vcard := if config.Email ≠ "" then vcard ++ ("EMAIL:" ++ config.Email ++ "\n") else vcard
  let vcard := if config.Phone ≠ "" then vcard ++ ("TEL;TYPE=CELL:" ++ config.Phone ++ "\n") else vcard
  let vcard := if config.BaseURL ≠ "" then vcard ++ ("URL:" ++ config.BaseURL ++ "\n") else vcard
  let vcard := if config.Github ≠ "" then vcard ++ ("URL:" ++ config.Github ++ "\n") else vcard
  let vcard := if config.Facebook ≠ "" then vcard ++ ("URL:" ++ config.Facebook ++ "\n") else vcard
  let vcard := if config.Bluesky ≠ "" then vcard ++ ("URL:" ++ config.Bluesky ++ "\n") else vcard
  let vcard := if config.Whatsapp ≠ "" then vcard ++ ("URL:" ++ config.Whatsapp ++ "\n") else vcard
  -- Add notes for context
  let notes := ""
  let notes := if config.Bluesky ≠ "" then notes ++ ("Bluesky: " ++ config.Bluesky ++ "\\n") else notes
  let notes := if config.Github ≠ "" then notes ++ ("GitHub: " ++ config.Github ++ "\\n") else notes
  let notes := if config.Facebook ≠ "" then notes ++ ("Facebook: " ++ config.Facebook ++ "\\n") else notes
  let vcard := if notes.length > 0 then vcard ++ ("NOTE:" ++ notes ++ "\n") else vcard
  let vcard := vcard ++ "END:VCARD"
  { status := 200
    header := [("Content-Type", "text/vcard"),
               ("Content-Disposition", "attachment; filename=\"contact.vcf\"")]
    body := Body.text vcard }

/-- The Jane Doe record of the specification's concrete scenario. -/
def janeDoe : Config :=
  { Name := "Jane Doe", BaseURL := "https://example.com/jane", Email := "jane@example.com",
    Phone := "", Github := "https://github.com/jane", Bluesky := "", Whatsapp := "",
    Facebook := "", Port := "8080" }

/-! ## Configuration loading -/

/-- The function `loadConfig` of `main.go`, as a function of the environment
after `godotenv.Load()` (`getenv` is `os.Getenv`, which yields the empty
string for an unset variable).  Go returns the pair `(cfg, err)`; the error
is modelled by its message. -/
def loadConfig (getenv : String → String) : Config × Option String :=
  let cfg : Config :=
    { Name := getenv "NAME"
      Bluesky := getenv "BLUESKY"
      Email := getenv "EMAIL"
      Github := getenv "GITHUB"
      Whatsapp := getenv "WHATSAPP"
      Facebook := getenv "FACEBOOK"
      Phone := getenv "PHONE"
      BaseURL := getenv "BASE_URL"
      Port := getenv "PORT" }
  let cfg := if cfg.Port = "" then { cfg with Port := "8080" } else cfg
  -- Validate required fields
  if cfg.Name = "" then (cfg, some "NAME is required in .env")
  else if cfg.BaseURL = "" then (cfg, some "BASE_URL is required in .env")
  else (cfg, none)

/-! ## The QR handler -/

/-- The error-correction levels of the QR encoder (`qrcode.RecoveryLevel`). -/
inductive RecoveryLevel where
  | Low
  | Medium
  | High
  | Highest
  deriving DecidableEq, Repr

/-- Go's `http.Error`: the status code, a plain-text content type and the
message followed by a line feed. -/
def httpError (error : String) (code : Nat) : Response :=
  { status := code
    header := [("Content-Type", "text/plain; charset=utf-8"),
               ("X-Content-Type-Options", "nosniff")]
    body := Body.text (error ++ "\n") }

/-- The handler `qrHandler` of `main.go`.  The external encoder
`qrcode.Encode` is the argument `encode`; it yields the PNG bytes or an error,
modelled by its message. -/
def qrHandler (encode : String → RecoveryLevel → Int → Except String (List UInt8))
    (config : Config) : Response :=
  match encode config.BaseURL RecoveryLevel.Medium 256 with
  | Except.error err => httpError err 500
  | Except.ok png =>
    { status := 200
      header := [("Content-Type", "image/png"), ("Cache-Control", "public, max-age=3600")]
      body := Body.bytes png }

/-! ## The escapers of Go's `html/template`

The template of `initTemplates` is parsed by `html/template`, which escapes
every action according to the context it stands in.  The functions below are
that library's escapers, for string arguments. -/

/-- The replacement table `htmlReplacementTable` of `html/template`. -/
def htmlReplacementTable (c : Char) : Option String :=
  if c = Char.ofNat 0 then some "\uFFFD"
  else if c = '"' then some "&#34;"
  else if c = '&' then some "&amp;"
  else if c = Char.ofNat 39 then some "&#39;"
  else if c = '+' then some "&#43;"
  else if c = '<' then some "&lt;"
  else if c = '>' then some "&gt;"
  else none

/-- What `htmlReplacer` writes for one character. -/
def htmlReplaceChar (c : Char) : List Char :=
  match htmlReplacementTable c with
  | some repl => repl.data
  | none => [c]

/-- The function `htmlReplacer` with `htmlReplacementTable`: every character of
the table is replaced, every other one kept. -/
def htmlReplacer (s : String) : String := ⟨s.data.flatMap htmlReplaceChar⟩

/-- The escaper of text content (`_html_template_htmlescaper`). -/
def htmlEscaper (s : String) : String := htmlReplacer s

/-- The escaper of the content of `<title>` (`_html_template_rcdataescaper`). -/
def rcdataEscaper (s : String) : String := htmlReplacer s

/-- The escaper of quoted attribute values (`_html_template_attrescaper`). -/
def attrEscaper (s : String) : String := htmlReplacer s

/-- A lower-case hexadecimal digit. -/
def hexDigit (n : Nat) : Char := Nat.digitChar (n % 16)

/-- The bytes of a character, each written as `%xx` (`fmt.Fprintf(b, "%%%02x", c)`
for every byte of the character's UTF-8 encoding). -/
def pctEncode (c : Char) : List Char :=
  (String.utf8EncodeChar c).flatMap
    (fun b => ['%', hexDigit (b.toNat / 16), hexDigit (b.toNat % 16)])

/-- The function `isHex` of `html/template`. -/
def isHex (c : Char) : Bool :=
  ('0' ≤ c && c ≤ '9') || ('a' ≤ c && c ≤ 'f') || ('A' ≤ c && c ≤ 'F')

/-- The `switch` of `processURLOnto`: whether the character `c`, followed by
`rest`, is copied unchanged. -/
def urlKeeps (norm : Bool) (c : Char) (rest : List Char) : Bool :=
  if c ∈ ['!', '#', '$', '&', '*', '+', ',', '/', ':', ';', '=', '?', '@', '[', ']'] then norm
  else if c ∈ ['-', '.', '_', '~'] then true
  else if c = '%' then
    norm && (match rest with
      | a :: b :: _ => isHex a && isHex b
      | _ => false)
  else ('a' ≤ c && c ≤ 'z') || ('A' ≤ c && c ≤ 'Z') || ('0' ≤ c && c ≤ '9')

/-- The function `processURLOnto` of `html/template`. -/
def processURLOnto (norm : Bool) : List Char → List Char
  | [] => []
  | c :: rest =>
    (if urlKeeps norm c rest then [c] else pctEncode c) ++ processURLOnto norm rest

/-- The normalizer of URLs (`_html_template_urlnormalizer`). -/
def urlNormalizer (s : String) : String := ⟨processURLOnto true s.data⟩

/-- Whether `c` folds to the lower-case ASCII letter `t` under Unicode simple
case folding: the letter itself, its capital, and for `s` and `k` the long s
(U+017F) and the Kelvin sign (U+212A). -/
def foldsTo (c t : Char) : Bool :=
  c = t || c.toLower = t || (t = 's' && c = Char.ofNat 0x17F) ||
    (t = 'k' && c = Char.ofNat 0x212A)

/-- Go's `strings.EqualFold` against a lower-case ASCII word. -/
def equalFold : List Char → List Char → Bool
  | [], [] => true
  | c :: cs, t :: ts => foldsTo c t && equalFold cs ts
  | _, _ => false

/-- The part of the text before its first colon, if it has one
(`strings.Cut(s, ":")`). -/
def cutColon : List Char → Option (List Char)
  | [] => none
  | c :: cs => if c = ':' then some [] else (cutColon cs).map (c :: ·)

/-- The function `isSafeURL` of `html/template`: a URL without protocol, or
with one of the protocols http, https, mailto. -/
def isSafeURL (s : String) : Bool :=
  match cutColon s.data with
  | some protocol =>
    if '/' ∉ protocol then
      equalFold protocol "http".data || equalFold protocol "https".data ||
        equalFold protocol "mailto".data
    else true
  | none => true

/-- The filter of URLs (`_html_template_urlfilter`). -/
def urlFilter (s : String) : String :=
  if isSafeURL s then s else "#ZgotmplZ"

/-! ## The home page -/

/-- The template text before the title: the text of `tmpl` up to `<title>`. -/
def pageOpen : String :=
  "\n" ++
  "<!DOCTYPE html>\n" ++
  "<html lang=\"en\">\n" ++
  "<head>\n" ++
  "    <meta charset=\"UTF-8\">\n" ++
  "    <meta name=\"viewport\" content=\"width=device-width, initial-scale=1.0\">\n" ++
  "    <title>"

/-- The template text from the end of the title to the opening of `<h1>`: the fixed style block. -/
def pageStyle : String :=
  " - Contact Info</title>\n" ++
  "    <style>\n" ++
  "        * \x7b box-sizing: border-box; margin: 0; padding: 0; \x7d\n" ++
  "        body \x7b \n" ++
  "            font-family: -apple-system, BlinkMacSystemFont, \x27Segoe UI\x27, Roboto, \x27Helvetica Neue\x27, Arial, sans-serif;\n" ++
  "            max-width: 600px; \n" ++
  "            margin: 0 auto; \n" ++
  "            padding: 20px; \n" ++
  "            line-height: 1.6;\n" ++
  "            background: #f5f5f5;\n" ++
  "        \x7d\n" ++
  "        .container \x7b\n" ++
  "            background: white;\n" ++
  "            border-radius: 8px;\n" ++
  "            padding: 30px;\n" ++
  "            box-shadow: 0 2px 10px rgba(0,0,0,0.1);\n" ++
  "        \x7d\n" ++
  "        h1 \x7b \n" ++
  "            text-align: center;\n" ++
  "            margin-bottom: 30px;\n" ++
  "            color: #333;\n" ++
  "            font-size: 2em;\n" ++
  "        \x7d\n" ++
  "        .contact-list \x7b \n" ++
  "            list-style: none; \n" ++
  "            padding: 0;\n" ++
  "            margin-bottom: 20px;\n" ++
  "        \x7d\n" ++
  "        .contact-list li \x7b \n" ++
  "            margin-bottom: 15px;\n" ++
  "            padding: 10px;\n" ++
  "            background: #f9f9f9;\n" ++
  "            border-radius: 5px;\n" ++
  "            transition: background 0.2s;\n" ++
  "        \x7d\n" ++
  "        .contact-list li:hover \x7b\n" ++
  "            background: #e9e9e9;\n" ++
  "        \x7d\n" ++
  "        .contact-list strong \x7b\n" ++
  "            display: inline-block;\n" ++
  "            min-width: 100px;\n" ++
  "            color: #555;\n" ++
  "        \x7d\n" ++
  "        .contact-list a \x7b \n" ++
  "            text-decoration: none; \n" ++
  "            color: #007bff;\n" ++
  "            word-break: break-all;\n" ++
  "        \x7d\n" ++
  "        .contact-list a:hover \x7b\n" ++
  "            text-decoration: underline;\n" ++
  "        \x7d\n" ++
  "        .btn \x7b \n" ++
  "            display: block; \n" ++
  "            width: 100%; \n" ++
  "            padding: 15px; \n" ++
  "            background: #28a745; \n" ++
  "            color: white; \n" ++
  "            text-align: center; \n" ++
  "            text-decoration: none; \n" ++
  "            border-radius: 5px; \n" ++
  "            margin-top: 20px;\n" ++
  "            font-weight: bold;\n" ++
  "            transition: background 0.2s;\n" ++
  "        \x7d\n" ++
  "        .btn:hover \x7b\n" ++
  "            background: #218838;\n" ++
  "        \x7d\n" ++
  "        @media (max-width: 600px) \x7b\n" ++
  "            body \x7b padding: 10px; \x7d\n" ++
  "            .container \x7b padding: 20px; \x7d\n" ++
  "            h1 \x7b font-size: 1.5em; \x7d\n" ++
  "            .contact-list strong \x7b\n" ++
  "                display: block;\n" ++
  "                margin-bottom: 5px;\n" ++
  "            \x7d\n" ++
  "        \x7d\n" ++
  "    </style>\n" ++
  "</head>\n" ++
  "<body>\n" ++
  "    <div class=\"container\">\n" ++
  "        <h1>"

/-- The template text between the heading and the first entry. -/
def listOpen : String :=
  "</h1>\n" ++
  "        <ul class=\"contact-list\">\n" ++
  "            "

/-- The template text after the last entry: the end of the list, the download link and the closing tags. -/
def pageClose : String :=
  "\n" ++
  "        </ul>\n" ++
  "        <a href=\"/contact.vcf\" class=\"btn\">Download Contact (vCard)</a>\n" ++
  "    </div>\n" ++
  "</body>\n" ++
  "</html>\n"

/-- The text written by `homeTemplate.Execute(w, config)`: the template of
`initTemplates`, every action escaped for its context (the name in `<title>`
and in text, a value after `mailto:` or `tel:` inside `href`, a value that is
the whole of `href`, a value in text); an `if` block is written when its
field is non-empty. -/
def homeTemplate (config : Config) : String :=
  pageOpen ++ rcdataEscaper config.Name ++ pageStyle ++ htmlEscaper config.Name ++ listOpen ++
  (if config.Email ≠ "" then
    "<li><strong>Email:</strong> <a href=\"mailto:" ++ attrEscaper (urlNormalizer config.Email) ++
      "\">" ++ htmlEscaper config.Email ++ "</a></li>" else "") ++
  "\n            " ++
  (if config.Phone ≠ "" then
    "<li><strong>Phone:</strong> <a href=\"tel:" ++ attrEscaper (urlNormalizer config.Phone) ++
      "\">" ++ htmlEscaper config.Phone ++ "</a></li>" else "") ++
  "\n            " ++
  (if config.Bluesky ≠ "" then
    "<li><strong>Bluesky:</strong> <a href=\"" ++
      attrEscaper (urlNormalizer (urlFilter config.Bluesky)) ++
      "\" target=\"_blank\" rel=\"noopener\">Profile</a></li>" else "") ++
  "\n            " ++
  (if config.Github ≠ "" then
    "<li><strong>GitHub:</strong> <a href=\"" ++
      attrEscaper (urlNormalizer (urlFilter config.Github)) ++
      "\" target=\"_blank\" rel=\"noopener\">Profile</a></li>" else "") ++
  "\n            " ++
  (if config.Whatsapp ≠ "" then
    "<li><strong>WhatsApp:</strong> <a href=\"" ++
      attrEscaper (urlNormalizer (urlFilter config.Whatsapp)) ++
      "\" target=\"_blank\" rel=\"noopener\">Chat</a></li>" else "") ++
  "\n            " ++
  (if config.Facebook ≠ "" then
    "<li><strong>Facebook:</strong> <a href=\"" ++
      attrEscaper (urlNormalizer (urlFilter config.Facebook)) ++
      "\" target=\"_blank\" rel=\"noopener\">Profile</a></li>" else "") ++
  pageClose

/-- The handler `homeHandler` of `main.go`, for the request path `path`. -/
def homeHandler (config : Config) (path : String) : Response :=
  if path ≠ "/" then httpError "404 page not found" 404
  else { status := 200, header := [], body := Body.text (homeTemplate config) }

/-- The pieces of an HTML text between the occurrences of `<`: after the
first piece, every piece starts with the name of a tag. -/
def tags (html : String) : List String := splitAt '<' html

/-! ## Expected shapes, used to state the lemmas -/

/-- A line that is present only under a condition. -/
def optLine (p : Prop) [Decidable p] (l : String) : List String := if p then [l] else []

/-- The text written after `NOTE:`: every non-empty field among Bluesky,
GitHub, Facebook, labelled and followed by the escaped newline token. -/
def noteText (c : Config) : String :=
  (if c.Bluesky ≠ "" then "Bluesky: " ++ c.Bluesky ++ "\\n" else "") ++
  ((if c.Github ≠ "" then "GitHub: " ++ c.Github ++ "\\n" else "") ++
  (if c.Facebook ≠ "" then "Facebook: " ++ c.Facebook ++ "\\n" else ""))

/-- The lines of the vCard of a record without line breaks. -/
def vcardLines (c : Config) : List String :=
  ["BEGIN:VCARD", "VERSION:3.0", "FN:" ++ c.Name] ++
  (optLine (c.Email ≠ "") ("EMAIL:" ++ c.Email) ++
  (optLine (c.Phone ≠ "") ("TEL;TYPE=CELL:" ++ c.Phone) ++
  (optLine (c.BaseURL ≠ "") ("URL:" ++ c.BaseURL) ++
  (optLine (c.Github ≠ "") ("URL:" ++ c.Github) ++
  (optLine (c.Facebook ≠ "") ("URL:" ++ c.Facebook) ++
  (optLine (c.Bluesky ≠ "") ("URL:" ++ c.Bluesky) ++
  (optLine (c.Whatsapp ≠ "") ("URL:" ++ c.Whatsapp) ++
  (optLine (noteText c ≠ "") ("NOTE:" ++ noteText c) ++
  ["END:VCARD"]))))))))

/-- The labelled entries of the NOTE line: `Bluesky: <blueSky>`,
`GitHub: <github>`, `Facebook: <facebook>` for the non-empty fields, in that order. -/
def noteEntries (c : Config) : List String :=
  ([("Bluesky: ", c.Bluesky), ("GitHub: ", c.Github), ("Facebook: ", c.Facebook)].filter
    (fun e => e.2 ≠ "")).map (fun e => e.1 ++ e.2)

/-- A line of a well-formed card: one of the three fixed lines, or a line
that starts with one of the property names the handler writes. -/
def recordLine (l : String) : Bool :=
  l = "BEGIN:VCARD" || l = "VERSION:3.0" || l = "END:VCARD" ||
  hasPrefix "FN:" l || hasPrefix "EMAIL:" l || hasPrefix "TEL;TYPE=CELL:" l ||
  hasPrefix "URL:" l || hasPrefix "NOTE:" l

/-- The Jane Doe record with a line feed inside the name. -/
def janeBroken : Config := { janeDoe with Name := "Jane\nDoe" }

/-- An entry of the list: the fixed text `open_`, the escaped value `value`
and the fixed text `close`, written only under the condition `p`. -/
def entry (p : Prop) [Decidable p] (open_ value close : List Char) : List Char :=
  if p then open_ ++ (value ++ close) else []

/-- The blank text between two entries of the template. -/
def gap : List Char := "\n            ".data

/-- The characters of the home page before the closing text, as one
right-nested concatenation. -/
def pageBody (c : Config) (close : List Char) : List Char :=
  entry (c.Email ≠ "") "<li><strong>Email:</strong> <a href=\"mailto:".data
    ((attrEscaper (urlNormalizer c.Email)).data ++ ("\">".data ++ (htmlEscaper c.Email).data))
    "</a></li>".data ++ (gap ++
  (entry (c.Phone ≠ "") "<li><strong>Phone:</strong> <a href=\"tel:".data
    ((attrEscaper (urlNormalizer c.Phone)).data ++ ("\">".data ++ (htmlEscaper c.Phone).data))
    "</a></li>".data ++ (gap ++
  (entry (c.Bluesky ≠ "") "<li><strong>Bluesky:</strong> <a href=\"".data
    (attrEscaper (urlNormalizer (urlFilter c.Bluesky))).data
    "\" target=\"_blank\" rel=\"noopener\">Profile</a></li>".data ++ (gap ++
  (entry (c.Github ≠ "") "<li><strong>GitHub:</strong> <a href=\"".data
    (attrEscaper (urlNormalizer (urlFilter c.Github))).data
    "\" target=\"_blank\" rel=\"noopener\">Profile</a></li>".data ++ (gap ++
  (entry (c.Whatsapp ≠ "") "<li><strong>WhatsApp:</strong> <a href=\"".data
    (attrEscaper (urlNormalizer (urlFilter c.Whatsapp))).data
    "\" target=\"_blank\" rel=\"noopener\">Chat</a></li>".data ++ (gap ++
  (entry (c.Facebook ≠ "") "<li><strong>Facebook:</strong> <a href=\"".data
    (attrEscaper (urlNormalizer (urlFilter c.Facebook))).data
    "\" target=\"_blank\" rel=\"noopener\">Profile</a></li>".data ++ close))))))))))

/-- A record without email whose Bluesky link is a `mailto:` URL. -/
def mailtoSocial : Config := { janeDoe with Email := "", Bluesky := "mailto:a@b.com" }

/-- A record with the email `a@b.com` whose Bluesky link is the same address
as a `mailto:` URL. -/
def mailtoTwice : Config := { janeDoe with Email := "a@b.com", Bluesky := "mailto:a@b.com" }

/-- The Jane Doe record with the email `a@b.com`. -/
def abDoe : Config := { janeDoe with Email := "a@b.com" }

/-! # Theorems -/

/-! ## Lemmas on splitting -/

theorem splitAcc_append (sep : Char) (a : List Char) (h : sep ∉ a) (acc rest : List Char) :
    splitAcc sep acc (a ++ rest) = splitAcc sep (acc ++ a) rest := by
  induction a generalizing acc with
  | nil => simp
  | cons x xs ih =>
    have hx : x ≠ sep := fun e => h (by simp [e])
    have hxs : sep ∉ xs := fun e => h (by simp [e])
    simp [splitAcc, hx, ih hxs]

theorem splitAcc_sep (sep : Char) (acc rest : List Char) :
    splitAcc sep acc (sep :: rest) = acc :: splitAcc sep [] rest := by
  simp [splitAcc]

theorem splitAcc_free (sep : Char) (a : List Char) (h : sep ∉ a) (acc : List Char) :
    splitAcc sep acc a = [acc ++ a] := by
  have := splitAcc_append sep a h acc []
  simpa [splitAcc] using this

theorem string_ne_empty_iff (s : String) : s ≠ "" ↔ s.data ≠ [] := by
  constructor
  · intro h e; exact h (String.ext e)
  · intro h e; exact h (by rw [e])

theorem splitAt_line (l rest : String) (h : noLineBreak l) :
    splitAt '\n' (l ++ ("\n" ++ rest)) = l :: splitAt '\n' rest := by
  unfold splitAt
  simp only [String.data_append]
  rw [splitAcc_append _ _ h]
  show List.map String.mk (splitAcc '\n' ([] ++ l.data) ('\n' :: rest.data)) = _
  rw [splitAcc_sep]
  simp

theorem splitAt_last (l : String) (h : noLineBreak l) : splitAt '\n' l = [l] := by
  unfold splitAt
  rw [splitAcc_free _ _ h]
  simp

theorem splitAt_optLine (p : Prop) [Decidable p] (l rest : String) (h : noLineBreak l) :
    splitAt '\n' ((if p then l ++ "\n" else "") ++ rest) = optLine p l ++ splitAt '\n' rest := by
  by_cases hp : p
  · simp only [hp, if_true, optLine, String.append_assoc]
    rw [splitAt_line _ _ h]; rfl
  · simp [hp, optLine]

theorem noLineBreak_append {a b : String} (ha : noLineBreak a) (hb : noLineBreak b) :
    noLineBreak (a ++ b) := by
  unfold noLineBreak at *
  simp [String.data_append, ha, hb]

theorem noLineBreak_ite (p : Prop) [Decidable p] {a b : String} (ha : noLineBreak a)
    (hb : noLineBreak b) : noLineBreak (if p then a else b) := by
  split <;> assumption

/-! ## The text of the vCard -/

theorem ite_append_right (p : Prop) [Decidable p] (v x : String) :
    (if p then v ++ x else v) = v ++ (if p then x else "") := by
  split <;> simp

theorem length_pos_iff_ne_empty (s : String) : s.length > 0 ↔ s ≠ "" := by
  rw [string_ne_empty_iff]
  show s.data.length > 0 ↔ _
  cases s.data <;> simp

/-- The body of the vCard response as one concatenation. -/
theorem vcard_text (c : Config) :
    (vcardHandler c).text =
      "BEGIN:VCARD" ++ ("\n" ++ ("VERSION:3.0" ++ ("\n" ++ (("FN:" ++ c.Name) ++ ("\n" ++
      ((if c.Email ≠ "" then ("EMAIL:" ++ c.Email) ++ "\n" else "") ++
      ((if c.Phone ≠ "" then ("TEL;TYPE=CELL:" ++ c.Phone) ++ "\n" else "") ++
      ((if c.BaseURL ≠ "" then ("URL:" ++ c.BaseURL) ++ "\n" else "") ++
      ((if c.Github ≠ "" then ("URL:" ++ c.Github) ++ "\n" else "") ++
      ((if c.Facebook ≠ "" then ("URL:" ++ c.Facebook) ++ "\n" else "") ++
      ((if c.Bluesky ≠ "" then ("URL:" ++ c.Bluesky) ++ "\n" else "") ++
      ((if c.Whatsapp ≠ "" then ("URL:" ++ c.Whatsapp) ++ "\n" else "") ++
      ((if noteText c ≠ "" then ("NOTE:" ++ noteText c) ++ "\n" else "") ++
      "END:VCARD"))))))))))))) := by
  have hlen : ∀ s : String, (s.length > 0) = (s ≠ "") := fun s =>
    propext (length_pos_iff_ne_empty s)
  simp only [vcardHandler, Response.text, noteText, ite_append_right, hlen]
  simp only [String.append_assoc, String.empty_append]
  rfl

theorem lines_vcard (c : Config) (h : c.noLineBreaks) :
    lines (vcardHandler c).text = vcardLines c := by
  obtain ⟨hN, hB, hE, hG, hW, hF, hP, hU⟩ := h
  have lit : ∀ s : String, '\n' ∉ s.data → noLineBreak s := fun _ h => h
  have hnote : noLineBreak (noteText c) := by
    unfold noteText
    refine noLineBreak_append (noLineBreak_ite _ ?_ (lit _ (by decide)))
      (noLineBreak_append (noLineBreak_ite _ ?_ (lit _ (by decide)))
        (noLineBreak_ite _ ?_ (lit _ (by decide))))
    · exact noLineBreak_append (noLineBreak_append (lit _ (by decide)) hB) (lit _ (by decide))
    · exact noLineBreak_append (noLineBreak_append (lit _ (by decide)) hG) (lit _ (by decide))
    · exact noLineBreak_append (noLineBreak_append (lit _ (by decide)) hF) (lit _ (by decide))
  rw [vcard_text, lines, vcardLines]
  rw [splitAt_line _ _ (lit _ (by decide)), splitAt_line _ _ (lit _ (by decide)),
    splitAt_line _ _ (noLineBreak_append (lit _ (by decide)) hN),
    splitAt_optLine _ _ _ (noLineBreak_append (lit _ (by decide)) hE),
    splitAt_optLine _ _ _ (noLineBreak_append (lit _ (by decide)) hP),
    splitAt_optLine _ _ _ (noLineBreak_append (lit _ (by decide)) hU),
    splitAt_optLine _ _ _ (noLineBreak_append (lit _ (by decide)) hG),
    splitAt_optLine _ _ _ (noLineBreak_append (lit _ (by decide)) hF),
    splitAt_optLine _ _ _ (noLineBreak_append (lit _ (by decide)) hB),
    splitAt_optLine _ _ _ (noLineBreak_append (lit _ (by decide)) hW),
    splitAt_optLine _ _ _ (noLineBreak_append (lit _ (by decide)) hnote),
    splitAt_last _ (lit _ (by decide))]
  rfl

/-! ## Prefix tests on the lines -/

theorem hasPrefix_append (p x : String) : hasPrefix p (p ++ x) = true := by
  simp [hasPrefix, String.data_append]

theorem filter_optLine (q : String → Bool) (p : Prop) [Decidable p] (l : String) :
    (optLine p l).filter q = if q l = true then optLine p l else [] := by
  unfold optLine
  by_cases hp : p <;> by_cases hq : q l = true <;> simp [hp, hq]

theorem noteText_eq_join (c : Config) :
    noteText c = String.join ((noteEntries c).map (· ++ "\\n")) := by
  unfold noteText noteEntries
  by_cases hb : c.Bluesky = "" <;> by_cases hg : c.Github = "" <;>
    by_cases hf : c.Facebook = "" <;>
    simp [hb, hg, hf, String.join, String.append_assoc]

theorem noteText_ne_empty (c : Config) :
    noteText c ≠ "" ↔ (c.Bluesky ≠ "" ∨ c.Github ≠ "" ∨ c.Facebook ≠ "") := by
  rw [string_ne_empty_iff]
  unfold noteText
  by_cases hb : c.Bluesky = "" <;> by_cases hg : c.Github = "" <;>
    by_cases hf : c.Facebook = "" <;>
    simp [hb, hg, hf, String.data_append]

theorem filter_url_vcardLines (c : Config) :
    (vcardLines c).filter (hasPrefix "URL:") =
      optLine (c.BaseURL ≠ "") ("URL:" ++ c.BaseURL) ++
      (optLine (c.Github ≠ "") ("URL:" ++ c.Github) ++
      (optLine (c.Facebook ≠ "") ("URL:" ++ c.Facebook) ++
      (optLine (c.Bluesky ≠ "") ("URL:" ++ c.Bluesky) ++
      optLine (c.Whatsapp ≠ "") ("URL:" ++ c.Whatsapp)))) := by
  have h1 : hasPrefix "URL:" "BEGIN:VCARD" = false := by decide
  have h2 : hasPrefix "URL:" "VERSION:3.0" = false := by decide
  have h3 : hasPrefix "URL:" "END:VCARD" = false := by decide
  have h4 : ∀ x : String, hasPrefix "URL:" ("FN:" ++ x) = false := fun x => by
    simp [hasPrefix, String.data_append, List.isPrefixOf]
  have h5 : ∀ x : String, hasPrefix "URL:" ("EMAIL:" ++ x) = false := fun x => by
    simp [hasPrefix, String.data_append, List.isPrefixOf]
  have h6 : ∀ x : String, hasPrefix "URL:" ("TEL;TYPE=CELL:" ++ x) = false := fun x => by
    simp [hasPrefix, String.data_append, List.isPrefixOf]
  have h7 : ∀ x : String, hasPrefix "URL:" ("NOTE:" ++ x) = false := fun x => by
    simp [hasPrefix, String.data_append, List.isPrefixOf]
  simp only [vcardLines, List.filter_append, filter_optLine, hasPrefix_append, h5, h6, h7,
    if_true]
  simp [List.filter, h1, h2, h3, h4]

theorem filter_note_vcardLines (c : Config) :
    (vcardLines c).filter (hasPrefix "NOTE:") =
      optLine (noteText c ≠ "") ("NOTE:" ++ noteText c) := by
  have h1 : hasPrefix "NOTE:" "BEGIN:VCARD" = false := by decide
  have h2 : hasPrefix "NOTE:" "VERSION:3.0" = false := by decide
  have h3 : hasPrefix "NOTE:" "END:VCARD" = false := by decide
  have h4 : ∀ x : String, hasPrefix "NOTE:" ("FN:" ++ x) = false := fun x => by
    simp [hasPrefix, String.data_append, List.isPrefixOf]
  have h5 : ∀ x : String, hasPrefix "NOTE:" ("EMAIL:" ++ x) = false := fun x => by
    simp [hasPrefix, String.data_append, List.isPrefixOf]
  have h6 : ∀ x : String, hasPrefix "NOTE:" ("TEL;TYPE=CELL:" ++ x) = false := fun x => by
    simp [hasPrefix, String.data_append, List.isPrefixOf]
  have h7 : ∀ x : String, hasPrefix "NOTE:" ("URL:" ++ x) = false := fun x => by
    simp [hasPrefix, String.data_append, List.isPrefixOf]
  simp only [vcardLines, List.filter_append, filter_optLine, hasPrefix_append, h5, h6, h7,
    if_true]
  simp [List.filter, h1, h2, h3, h4]

theorem mem_optLine (p : Prop) [Decidable p] (l x : String) :
    x ∈ optLine p l ↔ p ∧ x = l := by
  unfold optLine
  by_cases hp : p <;> simp [hp]

theorem url_append_inj (a b : String) : "URL:" ++ a = "URL:" ++ b ↔ a = b := by
  constructor
  · intro h
    have := congrArg String.data h
    simp only [String.data_append, List.append_cancel_left_eq] at this
    exact String.ext this
  · intro h; rw [h]

/-! ## The claims on the vCard -/

/-- C1: for a valid record without line breaks, the lines of the vCard that
start with `URL:` are `URL:<canonicalURL>` followed by `URL:<value>` for the
non-empty fields among github, facebook, blueSky, whatsapp, in that order; so
the canonicalURL line is present, and a social field has its URL line if and
only if it is non-empty. -/
theorem vcard_url_lines (c : Config) (hv : c.valid) (hn : c.noLineBreaks) :
    (lines (vcardHandler c).text).filter (hasPrefix "URL:") =
        ("URL:" ++ c.BaseURL) ::
          ([c.Github, c.Facebook, c.Bluesky, c.Whatsapp].filter (· ≠ "")).map ("URL:" ++ ·)
    ∧ ("URL:" ++ c.BaseURL) ∈ lines (vcardHandler c).text
    ∧ ∀ f ∈ [c.Github, c.Facebook, c.Bluesky, c.Whatsapp],
        (("URL:" ++ f) ∈ lines (vcardHandler c).text ↔ f ≠ "") := by
  have hU : c.BaseURL ≠ "" := hv.2
  have hfilter : (lines (vcardHandler c).text).filter (hasPrefix "URL:") =
        ("URL:" ++ c.BaseURL) ::
          ([c.Github, c.Facebook, c.Bluesky, c.Whatsapp].filter (· ≠ "")).map ("URL:" ++ ·) := by
    rw [lines_vcard c hn, filter_url_vcardLines]
    by_cases hg : c.Github = "" <;> by_cases hf : c.Facebook = "" <;>
      by_cases hb : c.Bluesky = "" <;> by_cases hw : c.Whatsapp = "" <;>
      simp [optLine, hU, hg, hf, hb, hw, List.filter]
  have hmem : ∀ x : String, hasPrefix "URL:" x = true →
      (x ∈ lines (vcardHandler c).text ↔
        x ∈ ("URL:" ++ c.BaseURL) ::
          ([c.Github, c.Facebook, c.Bluesky, c.Whatsapp].filter (· ≠ "")).map ("URL:" ++ ·)) := by
    intro x hx
    rw [← hfilter, List.mem_filter]
    simp [hx]
  refine ⟨hfilter, ?_, ?_⟩
  · rw [hmem _ (hasPrefix_append _ _)]
    simp
  · intro f hf
    rw [hmem _ (hasPrefix_append _ _)]
    simp only [List.mem_cons, List.mem_map, List.mem_filter, url_append_inj]
    constructor
    · rintro (h | ⟨a, ⟨_, ha⟩, rfl⟩)
      · rw [h]; exact hU
      · simpa using ha
    · intro hne
      exact Or.inr ⟨f, ⟨by simpa using hf, by simpa using hne⟩, rfl⟩

/-- Witness of C1: the Jane Doe record. -/
theorem vcard_url_lines_witness :
    (lines (vcardHandler janeDoe).text).filter (hasPrefix "URL:") =
      ["URL:https://example.com/jane", "URL:https://github.com/jane"] :=
  (vcard_url_lines janeDoe (by decide) (by decide)).1

/-- C2, as stated, fails on the Jane Doe record: the record is valid, github
is non-empty, the single NOTE line is `NOTE:GitHub: https://github.com/jane\n`
(the token also follows the last entry), not `NOTE:` followed by the joined
entries. -/
theorem vcard_note_joined_fails :
    janeDoe.valid ∧ (janeDoe.Bluesky ≠ "" ∨ janeDoe.Github ≠ "" ∨ janeDoe.Facebook ≠ "") ∧
    noteEntries janeDoe = ["GitHub: https://github.com/jane"] ∧
    (lines (vcardHandler janeDoe).text).filter (hasPrefix "NOTE:") =
      ["NOTE:GitHub: https://github.com/jane\\n"] ∧
    (lines (vcardHandler janeDoe).text).filter (hasPrefix "NOTE:") ≠
      ["NOTE:" ++ "\\n".intercalate (noteEntries janeDoe)] := by
  decide

/-- C2, amended: for a valid record with at least one of blueSky, github,
facebook non-empty, the card ends with a line feed, `NOTE:`, the entries of the
non-empty fields in the order blueSky, github, facebook, each entry followed by
the escaped newline token, a line feed and `END:VCARD`; when no field value
holds a line break, that is the one line starting with `NOTE:`. -/
theorem vcard_note_terminated (c : Config) (_hv : c.valid)
    (h : c.Bluesky ≠ "" ∨ c.Github ≠ "" ∨ c.Facebook ≠ "") :
    (∃ before : String, (vcardHandler c).text =
        before ++ "\n" ++ "NOTE:" ++ String.join ((noteEntries c).map (· ++ "\\n")) ++ "\n" ++
          "END:VCARD")
    ∧ (c.noLineBreaks → (lines (vcardHandler c).text).filter (hasPrefix "NOTE:") =
        ["NOTE:" ++ String.join ((noteEntries c).map (· ++ "\\n"))]) := by
  have hne : noteText c ≠ "" := (noteText_ne_empty c).2 h
  constructor
  · rw [vcard_text, ← noteText_eq_join]
    simp only [hne, if_true, ne_eq, not_false_eq_true]
    have hopt : ∀ (p : Prop) [Decidable p] (l rest : String),
        (if p then l ++ "\n" else "") ++ rest =
          (if p then l else "") ++ ((if p then "\n" else "") ++ rest) := by
      intro p _ l rest; split <;> simp [String.append_assoc]
    have hend : ∀ (p : Prop) [Decidable p] (l : String) (x : String),
        ∃ y : String, x ++ "\n" ++ (if p then l ++ "\n" else "") = y ++ "\n" := by
      intro p _ l x
      by_cases hp : p
      · exact ⟨x ++ "\n" ++ l, by simp [hp, String.append_assoc]⟩
      · exact ⟨x, by simp [hp]⟩
    obtain ⟨y1, h1⟩ := hend (c.Email ≠ "") ("EMAIL:" ++ c.Email)
      ("BEGIN:VCARD" ++ "\n" ++ "VERSION:3.0" ++ "\n" ++ ("FN:" ++ c.Name))
    obtain ⟨y2, h2⟩ := hend (c.Phone ≠ "") ("TEL;TYPE=CELL:" ++ c.Phone) y1
    obtain ⟨y3, h3⟩ := hend (c.BaseURL ≠ "") ("URL:" ++ c.BaseURL) y2
    obtain ⟨y4, h4⟩ := hend (c.Github ≠ "") ("URL:" ++ c.Github) y3
    obtain ⟨y5, h5⟩ := hend (c.Facebook ≠ "") ("URL:" ++ c.Facebook) y4
    obtain ⟨y6, h6⟩ := hend (c.Bluesky ≠ "") ("URL:" ++ c.Bluesky) y5
    obtain ⟨y7, h7⟩ := hend (c.Whatsapp ≠ "") ("URL:" ++ c.Whatsapp) y6
    refine ⟨y7, ?_⟩
    rw [← h7, ← h6, ← h5, ← h4, ← h3, ← h2, ← h1]
    simp only [String.append_assoc]
  · intro hn
    rw [lines_vcard c hn, filter_note_vcardLines, ← noteText_eq_join]
    simp [optLine, hne]

/-- Witness of the amended C2: the Jane Doe record. -/
theorem vcard_note_terminated_witness :
    (lines (vcardHandler janeDoe).text).filter (hasPrefix "NOTE:") =
      ["NOTE:" ++ String.join ((noteEntries janeDoe).map (· ++ "\\n"))] :=
  (vcard_note_terminated janeDoe (by decide) (by decide)).2 (by decide)

/-- C3: the vCard text begins with `BEGIN:VCARD`, line feed, `VERSION:3.0`,
line feed, and ends with `END:VCARD` with nothing after it (for every record,
valid or not). -/
theorem vcard_begin_end (c : Config) :
    ∃ middle : String,
      (vcardHandler c).text = "BEGIN:VCARD\nVERSION:3.0\n" ++ middle ++ "END:VCARD" := by
  rw [vcard_text]
  refine ⟨("FN:" ++ c.Name) ++ ("\n" ++
      ((if c.Email ≠ "" then ("EMAIL:" ++ c.Email) ++ "\n" else "") ++
      ((if c.Phone ≠ "" then ("TEL;TYPE=CELL:" ++ c.Phone) ++ "\n" else "") ++
      ((if c.BaseURL ≠ "" then ("URL:" ++ c.BaseURL) ++ "\n" else "") ++
      ((if c.Github ≠ "" then ("URL:" ++ c.Github) ++ "\n" else "") ++
      ((if c.Facebook ≠ "" then ("URL:" ++ c.Facebook) ++ "\n" else "") ++
      ((if c.Bluesky ≠ "" then ("URL:" ++ c.Bluesky) ++ "\n" else "") ++
      ((if c.Whatsapp ≠ "" then ("URL:" ++ c.Whatsapp) ++ "\n" else "") ++
      (if noteText c ≠ "" then ("NOTE:" ++ noteText c) ++ "\n" else ""))))))))), ?_⟩
  have : ("BEGIN:VCARD\nVERSION:3.0\n" : String) =
      "BEGIN:VCARD" ++ ("\n" ++ ("VERSION:3.0" ++ "\n")) := by decide
  rw [this]
  simp only [String.append_assoc]

/-- C4, as stated, fails: the Jane Doe record with the name `Jane\nDoe`
(a line feed inside) is valid, and its card has the line `Doe`, which is none
of the fixed lines and starts with none of the property names. -/
theorem vcard_newline_breaks_structure :
    janeBroken.valid ∧ "Doe" ∈ lines (vcardHandler janeBroken).text ∧
    recordLine "Doe" = false ∧
    ¬ (∀ l ∈ lines (vcardHandler janeBroken).text, recordLine l = true) := by
  decide

/-- C4, amended: for a valid record whose field values hold no line break,
every line of the card is `BEGIN:VCARD`, `VERSION:3.0` or `END:VCARD`, or
starts with one of `FN:`, `EMAIL:`, `TEL;TYPE=CELL:`, `URL:`, `NOTE:`. -/
theorem vcard_lines_wellformed (c : Config) (_hv : c.valid) (hn : c.noLineBreaks) :
    ∀ l ∈ lines (vcardHandler c).text,
      l = "BEGIN:VCARD" ∨ l = "VERSION:3.0" ∨ l = "END:VCARD" ∨
      hasPrefix "FN:" l = true ∨ hasPrefix "EMAIL:" l = true ∨
      hasPrefix "TEL;TYPE=CELL:" l = true ∨ hasPrefix "URL:" l = true ∨
      hasPrefix "NOTE:" l = true := by
  intro l hl
  rw [lines_vcard c hn] at hl
  simp only [vcardLines, List.mem_append, List.mem_cons, mem_optLine, List.mem_singleton,
    List.not_mem_nil, or_false] at hl
  rcases hl with (h | h | h) | ⟨_, h⟩ | ⟨_, h⟩ | ⟨_, h⟩ | ⟨_, h⟩ | ⟨_, h⟩ | ⟨_, h⟩ | ⟨_, h⟩ |
    ⟨_, h⟩ | h <;> subst h <;> simp [hasPrefix_append]

/-- Witness of the amended C4: the Jane Doe record. -/
theorem vcard_lines_wellformed_witness :
    janeDoe.valid ∧ janeDoe.noLineBreaks ∧
    ∀ l ∈ lines (vcardHandler janeDoe).text,
      l = "BEGIN:VCARD" ∨ l = "VERSION:3.0" ∨ l = "END:VCARD" ∨
      hasPrefix "FN:" l = true ∨ hasPrefix "EMAIL:" l = true ∨
      hasPrefix "TEL;TYPE=CELL:" l = true ∨ hasPrefix "URL:" l = true ∨
      hasPrefix "NOTE:" l = true :=
  ⟨by decide, by decide, vcard_lines_wellformed janeDoe (by decide) (by decide)⟩

/-- C5: for a valid record without line breaks, the card has a line starting
with `NOTE:` if and only if one of blueSky, github, facebook is non-empty; it
has at most one such line; the NOTE lines are the same whatever whatsapp is;
and a non-empty whatsapp has its `URL:` line. -/
theorem vcard_note_line (c : Config) (hv : c.valid) (hn : c.noLineBreaks) :
    ((∃ l ∈ lines (vcardHandler c).text, hasPrefix "NOTE:" l = true) ↔
        (c.Bluesky ≠ "" ∨ c.Github ≠ "" ∨ c.Facebook ≠ ""))
    ∧ ((lines (vcardHandler c).text).filter (hasPrefix "NOTE:")).length ≤ 1
    ∧ (∀ w : String, noLineBreak w →
        (lines (vcardHandler { c with Whatsapp := w }).text).filter (hasPrefix "NOTE:") =
          (lines (vcardHandler c).text).filter (hasPrefix "NOTE:"))
    ∧ (c.Whatsapp ≠ "" → ("URL:" ++ c.Whatsapp) ∈ lines (vcardHandler c).text) := by
  have hfilter := filter_note_vcardLines c
  rw [← lines_vcard c hn] at hfilter
  refine ⟨?_, ?_, ?_, ?_⟩
  · rw [← noteText_ne_empty]
    constructor
    · rintro ⟨l, hl, hp⟩
      have : l ∈ (lines (vcardHandler c).text).filter (hasPrefix "NOTE:") :=
        List.mem_filter.2 ⟨hl, hp⟩
      rw [hfilter, mem_optLine] at this
      exact this.1
    · intro hne
      refine ⟨"NOTE:" ++ noteText c, ?_, hasPrefix_append _ _⟩
      have : ("NOTE:" ++ noteText c) ∈ (lines (vcardHandler c).text).filter (hasPrefix "NOTE:") := by
        rw [hfilter, mem_optLine]; exact ⟨hne, rfl⟩
      exact (List.mem_filter.1 this).1
  · rw [hfilter]; unfold optLine; split <;> simp
  · intro w hw
    have hn2 : ({ c with Whatsapp := w } : Config).noLineBreaks := by
      obtain ⟨h1, h2, h3, h4, _, h6, h7, h8⟩ := hn
      exact ⟨h1, h2, h3, h4, hw, h6, h7, h8⟩
    rw [hfilter, lines_vcard _ hn2, filter_note_vcardLines]
    rfl
  · intro hw
    rw [lines_vcard c hn]
    simp [vcardLines, mem_optLine, hw]

/-- Witness of C5: the Jane Doe record has its one NOTE line. -/
theorem vcard_note_line_witness :
    ((lines (vcardHandler janeDoe).text).filter (hasPrefix "NOTE:")).length ≤ 1 :=
  (vcard_note_line janeDoe (by decide) (by decide)).2.1

/-- C6: for a valid record without line breaks, the card starts with the
lines `BEGIN:VCARD`, `VERSION:3.0`, then `FN:<displayName>`, then
`EMAIL:<email>` exactly when email is non-empty, then `TEL;TYPE=CELL:<phone>`
exactly when phone is non-empty, and then comes `URL:<canonicalURL>`, the
first line that starts with `URL:`. -/
theorem vcard_head_lines (c : Config) (hv : c.valid) (hn : c.noLineBreaks) :
    ∃ between after : List String,
      lines (vcardHandler c).text =
        ["BEGIN:VCARD", "VERSION:3.0"] ++ between ++ ("URL:" ++ c.BaseURL) :: after
      ∧ between = ["FN:" ++ c.Name] ++
          (if c.Email ≠ "" then ["EMAIL:" ++ c.Email] else []) ++
          (if c.Phone ≠ "" then ["TEL;TYPE=CELL:" ++ c.Phone] else [])
      ∧ ∀ l ∈ between, hasPrefix "URL:" l = false := by
  have h4 : ∀ x : String, hasPrefix "URL:" ("FN:" ++ x) = false := fun x => by
    simp [hasPrefix, String.data_append, List.isPrefixOf]
  have h5 : ∀ x : String, hasPrefix "URL:" ("EMAIL:" ++ x) = false := fun x => by
    simp [hasPrefix, String.data_append, List.isPrefixOf]
  have h6 : ∀ x : String, hasPrefix "URL:" ("TEL;TYPE=CELL:" ++ x) = false := fun x => by
    simp [hasPrefix, String.data_append, List.isPrefixOf]
  refine ⟨_, optLine (c.Github ≠ "") ("URL:" ++ c.Github) ++
      (optLine (c.Facebook ≠ "") ("URL:" ++ c.Facebook) ++
      (optLine (c.Bluesky ≠ "") ("URL:" ++ c.Bluesky) ++
      (optLine (c.Whatsapp ≠ "") ("URL:" ++ c.Whatsapp) ++
      (optLine (noteText c ≠ "") ("NOTE:" ++ noteText c) ++
      ["END:VCARD"])))), ?_, rfl, ?_⟩
  · rw [lines_vcard c hn]
    simp only [vcardLines, optLine, hv.2, ne_eq, not_false_eq_true, if_true]
    simp only [List.append_assoc, List.cons_append, List.nil_append, List.singleton_append]
  · intro l hl
    simp only [List.mem_append, List.mem_singleton] at hl
    rcases hl with (h | h) | h
    · subst h; exact h4 _
    · split at h
      · simp only [List.mem_singleton] at h; subst h; exact h5 _
      · simp at h
    · split at h
      · simp only [List.mem_singleton] at h; subst h; exact h6 _
      · simp at h

/-- Witness of C6: the Jane Doe record (email set, phone empty) has
`FN:Jane Doe`, `EMAIL:jane@example.com` and no TEL line before its first
`URL:` line. -/
theorem vcard_head_lines_witness :
    ∃ between after : List String,
      lines (vcardHandler janeDoe).text =
        ["BEGIN:VCARD", "VERSION:3.0"] ++ between ++ ("URL:" ++ janeDoe.BaseURL) :: after
      ∧ between = ["FN:Jane Doe", "EMAIL:jane@example.com"]
      ∧ ∀ l ∈ between, hasPrefix "URL:" l = false := by
  obtain ⟨b, a, h1, h2, h3⟩ := vcard_head_lines janeDoe (by decide) (by decide)
  refine ⟨b, a, h1, ?_, h3⟩
  rw [h2]; decide

/-! ## The claims on configuration loading and on the QR handler -/

/-- C7: `loadConfig` fails exactly when NAME or BASE_URL is empty; its one
error names NAME exactly when NAME is empty (also when BASE_URL is empty
too), and names BASE_URL exactly when NAME is non-empty and BASE_URL is
empty; with both non-empty there is no error; the record returned carries
the values read (and the port, `8080` when none is given). -/
theorem loadConfig_validation (getenv : String → String) :
    ((loadConfig getenv).2 ≠ none ↔ (getenv "NAME" = "" ∨ getenv "BASE_URL" = ""))
    ∧ ((loadConfig getenv).2 = some "NAME is required in .env" ↔ getenv "NAME" = "")
    ∧ ((loadConfig getenv).2 = some "BASE_URL is required in .env" ↔
        (getenv "NAME" ≠ "" ∧ getenv "BASE_URL" = ""))
    ∧ ((loadConfig getenv).2 = none ↔ (getenv "NAME" ≠ "" ∧ getenv "BASE_URL" ≠ ""))
    ∧ (loadConfig getenv).1 =
        { Name := getenv "NAME", Bluesky := getenv "BLUESKY", Email := getenv "EMAIL",
          Github := getenv "GITHUB", Whatsapp := getenv "WHATSAPP",
          Facebook := getenv "FACEBOOK", Phone := getenv "PHONE",
          BaseURL := getenv "BASE_URL",
          Port := if getenv "PORT" = "" then "8080" else getenv "PORT" } := by
  have hne : ("NAME is required in .env" : String) ≠ "BASE_URL is required in .env" := by
    decide
  unfold loadConfig
  by_cases hp : getenv "PORT" = "" <;> by_cases hN : getenv "NAME" = "" <;>
    by_cases hB : getenv "BASE_URL" = "" <;> simp [hp, hN, hB, hne, hne.symm]

/-- C10: `qrHandler` passes the record's canonicalURL, the level Medium and
the size 256 to the encoder; on an error the response has status 500 and the
error message as its body (followed by a line feed); otherwise the body is
the encoder's bytes, with `Content-Type: image/png` and
`Cache-Control: public, max-age=3600`; the response depends on the encoder
only through that one call and on the record only through canonicalURL. -/
theorem qrHandler_response
    (encode : String → RecoveryLevel → Int → Except String (List UInt8)) (config : Config) :
    (∀ err : String, encode config.BaseURL RecoveryLevel.Medium 256 = Except.error err →
        (qrHandler encode config).status = 500 ∧
        (qrHandler encode config).body = Body.text (err ++ "\n"))
    ∧ (∀ png : List UInt8, encode config.BaseURL RecoveryLevel.Medium 256 = Except.ok png →
        (qrHandler encode config).status = 200 ∧
        (qrHandler encode config).body = Body.bytes png ∧
        (qrHandler encode config).header =
          [("Content-Type", "image/png"), ("Cache-Control", "public, max-age=3600")])
    ∧ (∀ (encode2 : String → RecoveryLevel → Int → Except String (List UInt8))
        (config2 : Config), config2.BaseURL = config.BaseURL →
        encode2 config.BaseURL RecoveryLevel.Medium 256 =
          encode config.BaseURL RecoveryLevel.Medium 256 →
        qrHandler encode2 config2 = qrHandler encode config) := by
  refine ⟨?_, ?_, ?_⟩
  · intro err h
    simp [qrHandler, h, httpError]
  · intro png h
    simp [qrHandler, h]
  · intro encode2 config2 hc he
    simp [qrHandler, hc, he]

/-! ## Splitting a text that is built from fixed and escaped parts -/

theorem splitAcc_ne_nil (sep : Char) (acc T : List Char) : splitAcc sep acc T ≠ [] := by
  induction T generalizing acc with
  | nil => simp [splitAcc]
  | cons c cs ih =>
    by_cases h : c = sep
    · simp [splitAcc, h]
    · simp [splitAcc, h, ih]

theorem splitAcc_acc (sep : Char) (acc T : List Char) :
    splitAcc sep acc T =
      (acc ++ (splitAcc sep [] T).headD []) :: (splitAcc sep [] T).tail := by
  induction T generalizing acc with
  | nil => simp [splitAcc]
  | cons c cs ih =>
    by_cases h : c = sep
    · simp [splitAcc, h]
    · simp only [splitAcc, h, if_false, List.nil_append]
      rw [ih (acc ++ [c]), ih [c]]
      simp

theorem splitAcc_text (sep : Char) (acc T rest : List Char) :
    splitAcc sep acc (T ++ rest) =
      (splitAcc sep acc T).dropLast ++
        splitAcc sep ((splitAcc sep acc T).getLastD []) rest := by
  induction T generalizing acc with
  | nil => simp [splitAcc]
  | cons c cs ih =>
    by_cases h : c = sep
    · have hne := splitAcc_ne_nil sep [] cs
      simp only [List.cons_append, splitAcc, h, if_true]
      rw [List.append_eq, ih []]
      cases hs : splitAcc sep [] cs with
      | nil => exact absurd hs hne
      | cons x xs => simp [List.dropLast, List.getLastD]
    · simp only [List.cons_append, splitAcc, h, if_false]
      rw [List.append_eq]
      exact ih _

/-- A fixed text `T` that holds the separator: the piece in progress is closed
by the first piece of `T`, and the last piece of `T` is in progress after. -/
theorem splitAcc_fixed (sep : Char) (acc T rest : List Char)
    (hT : (splitAcc sep [] T).tail ≠ []) :
    splitAcc sep acc (T ++ rest) =
      (acc ++ (splitAcc sep [] T).headD []) :: (splitAcc sep [] T).tail.dropLast ++
        splitAcc sep ((splitAcc sep [] T).tail.getLastD []) rest := by
  rw [splitAcc_text, splitAcc_acc sep acc T]
  cases ht : (splitAcc sep [] T).tail with
  | nil => exact absurd ht hT
  | cons x xs => simp [List.dropLast, List.getLastD]

/-! ## What the escapers write -/

theorem htmlReplaceChar_cases (c : Char) :
    htmlReplaceChar c = [c] ∨ (∃ t, htmlReplaceChar c = '&' :: t) ∨
      htmlReplaceChar c = [Char.ofNat 0xFFFD] := by
  unfold htmlReplaceChar htmlReplacementTable
  split_ifs <;> first
    | (left; rfl)
    | (right; left; exact ⟨_, rfl⟩)
    | (right; right; rfl)

theorem htmlReplaceChar_free (x c : Char) (hx : x = '<' ∨ x = '"') :
    x ∉ htmlReplaceChar c := by
  unfold htmlReplaceChar htmlReplacementTable
  rcases hx with rfl | rfl <;> split_ifs <;> simp_all <;> first | decide | (intro e; exact absurd e.symm (by assumption))

theorem htmlReplacer_free (x : Char) (hx : x = '<' ∨ x = '"') (s : String) :
    x ∉ (htmlReplacer s).data := by
  unfold htmlReplacer
  simp only [List.mem_flatMap, not_exists, not_and]
  intro c _
  exact htmlReplaceChar_free x c hx

theorem utf8EncodeChar_ne_nil (c : Char) : String.utf8EncodeChar c ≠ [] := by
  unfold String.utf8EncodeChar
  simp only
  split_ifs <;> simp

theorem pctEncode_head (c : Char) : ∃ t, pctEncode c = '%' :: t := by
  unfold pctEncode
  cases h : String.utf8EncodeChar c with
  | nil => exact absurd h (utf8EncodeChar_ne_nil c)
  | cons b bs => exact ⟨_, by rw [List.flatMap_cons]; rfl⟩

/-- A prefix of an escaped URL that holds none of `%`, `&`, U+FFFD is a
prefix of the URL itself. -/
theorem prefix_of_prefix_escaped (pat : List Char)
    (hp : ∀ p ∈ pat, p ≠ '%' ∧ p ≠ '&' ∧ p ≠ Char.ofNat 0xFFFD) (x : List Char) :
    pat <+: (processURLOnto true x).flatMap htmlReplaceChar → pat <+: x := by
  induction pat generalizing x with
  | nil => intro _; exact List.nil_prefix
  | cons p ps ih =>
    have hp0 := hp p (by simp)
    have hps : ∀ q ∈ ps, q ≠ '%' ∧ q ≠ '&' ∧ q ≠ Char.ofNat 0xFFFD :=
      fun q hq => hp q (by simp [hq])
    cases x with
    | nil => intro h; simp [processURLOnto] at h
    | cons c rest =>
      intro h
      simp only [processURLOnto, List.flatMap_append] at h
      by_cases hk : urlKeeps true c rest = true
      · simp only [hk, if_true, List.flatMap_cons, List.flatMap_nil, List.append_nil] at h
        rcases htmlReplaceChar_cases c with h1 | ⟨t, h1⟩ | h1
        · rw [h1] at h
          simp only [List.singleton_append, List.cons_prefix_cons] at h
          rw [h.1]
          exact List.cons_prefix_cons.2 ⟨rfl, ih hps rest h.2⟩
        · rw [h1] at h
          simp only [List.cons_append, List.cons_prefix_cons] at h
          exact absurd h.1 hp0.2.1
        · rw [h1] at h
          simp only [List.singleton_append, List.cons_prefix_cons] at h
          exact absurd h.1 hp0.2.2
      · simp only [hk, Bool.false_eq_true, if_false] at h
        obtain ⟨t, ht⟩ := pctEncode_head c
        rw [ht] at h
        have h2 : htmlReplaceChar '%' = ['%'] := by decide
        simp only [List.flatMap_cons, h2, List.singleton_append, List.cons_append,
          List.cons_prefix_cons] at h
        exact absurd h.1 hp0.1

theorem prefix_of_prefix_append_quote (pat e r : List Char) (hq : '"' ∉ pat)
    (h : pat <+: e ++ '"' :: r) : pat <+: e := by
  induction pat generalizing e with
  | nil => exact List.nil_prefix
  | cons p ps ih =>
    cases e with
    | nil =>
      simp only [List.nil_append, List.cons_prefix_cons] at h
      exact absurd (by simp [h.1]) hq
    | cons c cs =>
      simp only [List.cons_append, List.cons_prefix_cons] at h
      exact List.cons_prefix_cons.2 ⟨h.1, ih cs (fun hm => hq (by simp [hm])) h.2⟩

/-- The `href` of a social link starts with `mailto:` only if the field does. -/
theorem mailto_of_escaped (s : String) (r : List Char)
    (h : "mailto:".data <+: (attrEscaper (urlNormalizer (urlFilter s))).data ++ '"' :: r) :
    "mailto:".data <+: s.data := by
  have h1 := prefix_of_prefix_append_quote _ _ _ (by decide) h
  have h2 : "mailto:".data <+: (urlFilter s).data :=
    prefix_of_prefix_escaped _ (by decide) _ h1
  unfold urlFilter at h2
  split at h2
  · exact h2
  · exact absurd h2 (by decide)

/-! ## The text of the home page -/

theorem ite_data (p : Prop) [Decidable p] (a b : String) :
    (if p then a else b).data = if p then a.data else b.data := by
  split <;> rfl

theorem homeTemplate_data (c : Config) :
    (homeTemplate c).data =
      pageOpen.data ++ ((rcdataEscaper c.Name).data ++ (pageStyle.data ++
        ((htmlEscaper c.Name).data ++ (listOpen.data ++ pageBody c pageClose.data)))) := by
  have hnil : ("" : String).data = [] := rfl
  simp only [homeTemplate, pageBody, entry, gap, String.data_append, ite_data, hnil,
    List.append_assoc]

/-! ## The tags of the home page -/

theorem splitAcc_fixed_eq (sep : Char) (acc T rest first last : List Char)
    (mid : List (List Char)) (h : splitAcc sep [] T = first :: (mid ++ [last])) :
    splitAcc sep acc (T ++ rest) = (acc ++ first) :: (mid ++ splitAcc sep last rest) := by
  have hlast : ∀ (l : List (List Char)) (a : List Char), (l ++ [a]).getLastD [] = a := by
    intro l a
    induction l with
    | nil => rfl
    | cons x xs ih =>
      cases hx : xs ++ [a] with
      | nil => simp at hx
      | cons y ys => rw [hx] at ih; simpa [List.getLastD, hx] using ih
  rw [splitAcc_fixed sep acc T rest (by rw [h]; simp), h]
  simp only [List.tail_cons, List.dropLast_concat, hlast, List.headD_cons, List.cons_append]

/-- The pieces an entry adds, filtered: the piece in progress starts with one
of `/`, `u`, `t`, `h` and is not selected by `q`. -/
theorem filter_entry (q : List Char → Bool)
    (Hq : ∀ x t, x ∈ ['/', 'u', 't', 'h'] → q (x :: t) = false)
    (p : Prop) [Decidable p] (T1 V T2 last1 first2 : List Char) (mid1 mid2 : List (List Char))
    (h1 : splitAcc '<' [] T1 = [] :: (mid1 ++ [last1]))
    (h2 : splitAcc '<' [] T2 = first2 :: (mid2 ++ ["/li>".data]))
    (hV : '<' ∉ V) (rest : List Char) (L : List (List Char))
    (hrest : ∀ x t, x ∈ ['/', 'u', 't', 'h'] → (splitAcc '<' (x :: t) rest).filter q = L) :
    ∀ x t, x ∈ ['/', 'u', 't', 'h'] →
      (splitAcc '<' (x :: t) (entry p T1 V T2 ++ rest)).filter q =
        (if p then (mid1 ++ [last1 ++ V ++ first2] ++ mid2).filter q else []) ++ L := by
  intro x t hx
  by_cases hp : p
  · simp only [entry, hp, if_true, List.append_assoc]
    rw [splitAcc_fixed_eq _ _ _ _ _ _ _ h1, splitAcc_append _ _ hV,
      splitAcc_fixed_eq _ _ _ _ _ _ _ h2]
    have hli := hrest '/' "li>".data (by simp)
    have hli2 : ("/li>".data : List Char) = '/' :: "li>".data := by decide
    rw [hli2]
    simp only [List.filter_cons, List.filter_append, List.append_nil, Hq x t hx, hli,
      List.filter_nil, List.append_assoc, List.nil_append, Bool.false_eq_true, if_false]
    congr 1
    split <;> simp
  · simp only [entry, hp, if_false, List.nil_append]
    exact hrest x t hx

theorem filter_gap (q : List Char → Bool) (rest : List Char) (L : List (List Char))
    (hrest : ∀ x t, x ∈ ['/', 'u', 't', 'h'] → (splitAcc '<' (x :: t) rest).filter q = L) :
    ∀ x t, x ∈ ['/', 'u', 't', 'h'] → (splitAcc '<' (x :: t) (gap ++ rest)).filter q = L := by
  intro x t hx
  rw [splitAcc_append _ _ (by decide)]
  exact hrest x _ hx

theorem filter_close (q : List Char → Bool)
    (Hq : ∀ x t, x ∈ ['/', 'u', 't', 'h'] → q (x :: t) = false) :
    ∀ x t, x ∈ ['/', 'u', 't', 'h'] →
      (splitAcc '<' (x :: t) pageClose.data).filter q =
        ((splitAcc '<' [] pageClose.data).tail).filter q := by
  intro x t hx
  rw [splitAcc_acc]
  simp only [List.cons_append, List.filter_cons, Hq x _ hx, Bool.false_eq_true, if_false]

theorem filter_page (q : List Char → Bool)
    (Hq : ∀ x t, x ∈ ['/', 'u', 't', 'h'] → q (x :: t) = false)
    (hO : ((splitAcc '<' [] pageOpen.data).dropLast).filter q = [])
    (hS : ((splitAcc '<' [] pageStyle.data).tail.dropLast).filter q = [])
    (hL : ((splitAcc '<' [] listOpen.data).tail.dropLast).filter q = [])
    (n1 n2 : List Char) (hn1 : '<' ∉ n1) (hn2 : '<' ∉ n2)
    (body : List Char) (L : List (List Char))
    (hbody : ∀ x t, x ∈ ['/', 'u', 't', 'h'] → (splitAcc '<' (x :: t) body).filter q = L) :
    (splitAcc '<' [] (pageOpen.data ++ (n1 ++ (pageStyle.data ++
        (n2 ++ (listOpen.data ++ body)))))).filter q = L := by
  have eO : (splitAcc '<' [] pageOpen.data).getLastD [] = 't' :: "itle>".data := by decide!
  have eS1 : (splitAcc '<' [] pageStyle.data).tail ≠ [] := by decide!
  have eS2 : (splitAcc '<' [] pageStyle.data).tail.getLastD [] = 'h' :: "1>".data := by decide!
  have eL1 : (splitAcc '<' [] listOpen.data).tail ≠ [] := by decide!
  have eL2 : (splitAcc '<' [] listOpen.data).tail.getLastD [] =
      'u' :: "l class=\"contact-list\">\n            ".data := by decide!
  rw [splitAcc_text, eO, splitAcc_append _ _ hn1, splitAcc_fixed _ _ _ _ eS1, eS2,
    splitAcc_append _ _ hn2, splitAcc_fixed _ _ _ _ eL1, eL2]
  simp only [List.filter_append, List.filter_cons, List.cons_append, hO, hS, hL,
    Hq 't' _ (by simp), Hq 'h' _ (by simp), hbody 'u' _ (by simp), Bool.false_eq_true,
    if_false, List.nil_append]

/-- The tags of the home page selected by a test `q` that rejects every piece
starting with one of `/`, `u`, `t`, `h` and every tag of the fixed head:
those of the entries written, and those of the closing text. -/
theorem filter_tags (q : List Char → Bool)
    (Hq : ∀ x t, x ∈ ['/', 'u', 't', 'h'] → q (x :: t) = false)
    (hO : ((splitAcc '<' [] pageOpen.data).dropLast).filter q = [])
    (hS : ((splitAcc '<' [] pageStyle.data).tail.dropLast).filter q = [])
    (hL : ((splitAcc '<' [] listOpen.data).tail.dropLast).filter q = [])
    (c : Config) :
    (splitAcc '<' [] (homeTemplate c).data).filter q =
      (if c.Email ≠ "" then
        (["li>".data, "strong>Email:".data, "/strong> ".data] ++
          ["a href=\"mailto:".data ++ ((attrEscaper (urlNormalizer c.Email)).data ++
            ("\">".data ++ (htmlEscaper c.Email).data)) ++ []] ++ ["/a>".data]).filter q
        else []) ++
      ((if c.Phone ≠ "" then
        (["li>".data, "strong>Phone:".data, "/strong> ".data] ++
          ["a href=\"tel:".data ++ ((attrEscaper (urlNormalizer c.Phone)).data ++
            ("\">".data ++ (htmlEscaper c.Phone).data)) ++ []] ++ ["/a>".data]).filter q
        else []) ++
      ((if c.Bluesky ≠ "" then
        (["li>".data, "strong>Bluesky:".data, "/strong> ".data] ++
          ["a href=\"".data ++ (attrEscaper (urlNormalizer (urlFilter c.Bluesky))).data ++
            "\" target=\"_blank\" rel=\"noopener\">Profile".data] ++ ["/a>".data]).filter q
        else []) ++
      ((if c.Github ≠ "" then
        (["li>".data, "strong>GitHub:".data, "/strong> ".data] ++
          ["a href=\"".data ++ (attrEscaper (urlNormalizer (urlFilter c.Github))).data ++
            "\" target=\"_blank\" rel=\"noopener\">Profile".data] ++ ["/a>".data]).filter q
        else []) ++
      ((if c.Whatsapp ≠ "" then
        (["li>".data, "strong>WhatsApp:".data, "/strong> ".data] ++
          ["a href=\"".data ++ (attrEscaper (urlNormalizer (urlFilter c.Whatsapp))).data ++
            "\" target=\"_blank\" rel=\"noopener\">Chat".data] ++ ["/a>".data]).filter q
        else []) ++
      ((if c.Facebook ≠ "" then
        (["li>".data, "strong>Facebook:".data, "/strong> ".data] ++
          ["a href=\"".data ++ (attrEscaper (urlNormalizer (urlFilter c.Facebook))).data ++
            "\" target=\"_blank\" rel=\"noopener\">Profile".data] ++ ["/a>".data]).filter q
        else []) ++
      ((splitAcc '<' [] pageClose.data).tail).filter q))))) := by
  have hfree : ∀ s : String, '<' ∉ (htmlReplacer s).data :=
    fun s => htmlReplacer_free '<' (Or.inl rfl) s
  have hV : ∀ a b : String, '<' ∉ (attrEscaper (urlNormalizer a)).data ++
      ("\">".data ++ (htmlEscaper b).data) := by
    intro a b
    simp only [List.mem_append, not_or]
    exact ⟨hfree _, by decide, hfree _⟩
  rw [homeTemplate_data]
  refine filter_page q Hq hO hS hL _ _ (hfree _) (hfree _) _ _ ?_
  unfold pageBody
  exact
    filter_entry q Hq _ _ _ _ _ _ _ _ (by decide) (by decide) (hV _ _) _ _ <|
    filter_gap q _ _ <|
    filter_entry q Hq _ _ _ _ _ _ _ _ (by decide) (by decide) (hV _ _) _ _ <|
    filter_gap q _ _ <|
    filter_entry q Hq _ _ _ _ _ _ _ _ (by decide) (by decide) (hfree _) _ _ <|
    filter_gap q _ _ <|
    filter_entry q Hq _ _ _ _ _ _ _ _ (by decide) (by decide) (hfree _) _ _ <|
    filter_gap q _ _ <|
    filter_entry q Hq _ _ _ _ _ _ _ _ (by decide) (by decide) (hfree _) _ _ <|
    filter_gap q _ _ <|
    filter_entry q Hq _ _ _ _ _ _ _ _ (by decide) (by decide) (hfree _) _ _ <|
    filter_close q Hq

theorem tags_filter (P s : String) :
    (tags s).filter (hasPrefix P) =
      ((splitAcc '<' [] s.data).filter (fun l => P.data.isPrefixOf l)).map String.mk := by
  unfold tags splitAt
  rw [List.filter_map]
  rfl

theorem strong_tags (c : Config) :
    (tags (homeTemplate c)).filter (hasPrefix "strong>") =
      (if c.Email ≠ "" then ["strong>Email:"] else []) ++
      ((if c.Phone ≠ "" then ["strong>Phone:"] else []) ++
      ((if c.Bluesky ≠ "" then ["strong>Bluesky:"] else []) ++
      ((if c.Github ≠ "" then ["strong>GitHub:"] else []) ++
      ((if c.Whatsapp ≠ "" then ["strong>WhatsApp:"] else []) ++
      (if c.Facebook ≠ "" then ["strong>Facebook:"] else []))))) := by
  rw [tags_filter, filter_tags _ (by intro x t hx; simp at hx; rcases hx with rfl | rfl | rfl | rfl <;> rfl)
    (by decide!) (by decide!) (by decide!)]
  have hclose : List.filter (fun l => "strong>".data.isPrefixOf l)
      (splitAcc '<' [] pageClose.data).tail = [] := by decide!
  have hm : ∀ (p : Prop) [Decidable p] (l : List Char),
      List.map String.mk (if p then [] else [l]) = if p then [] else [String.mk l] := by
    intro p _ l; split <;> rfl
  simp [List.isPrefixOf, hclose]
  simp only [hm]

theorem filter_three (q : List Char → Bool) (A B X2 : List (List Char)) (X : List Char)
    (hA : A.filter q = []) (hX : [X].filter q = X2) (hB : B.filter q = []) :
    (A ++ [X] ++ B).filter q = X2 := by
  rw [List.filter_append, List.filter_append, hA, hX, hB]
  simp

theorem social_not_mailto (s : String) (close : List Char)
    (h : hasPrefix "mailto:" s = false) (hc : close.head? = some '"') :
    List.filter (fun l => "a href=\"mailto:".data.isPrefixOf l)
      ["a href=\"".data ++ (attrEscaper (urlNormalizer (urlFilter s))).data ++ close] = [] := by
  cases close with
  | nil => simp at hc
  | cons x r =>
    simp only [List.head?_cons, Option.some.injEq] at hc
    subst hc
    rw [List.filter_cons, List.filter_nil]
    have hnot : ¬ ("a href=\"mailto:".data.isPrefixOf
        ("a href=\"".data ++ (attrEscaper (urlNormalizer (urlFilter s))).data ++ '"' :: r)
          = true) := by
      intro hp
      rw [List.isPrefixOf_iff_prefix] at hp
      have e : "a href=\"mailto:".data = "a href=\"".data ++ "mailto:".data := by decide
      rw [e, List.append_assoc, List.prefix_append_right_inj] at hp
      have := mailto_of_escaped s r hp
      rw [← List.isPrefixOf_iff_prefix] at this
      unfold hasPrefix at h
      rw [this] at h
      exact absurd h (by decide)
    rw [if_neg hnot]

/-- The tags of the home page that open a `mailto:` link, when no social
field starts with `mailto:`: the one of the email entry, if it is written. -/
theorem mailto_tags (c : Config)
    (hs : ∀ f ∈ [c.Bluesky, c.Github, c.Whatsapp, c.Facebook], hasPrefix "mailto:" f = false) :
    (tags (homeTemplate c)).filter (hasPrefix "a href=\"mailto:") =
      if c.Email ≠ "" then
        ["a href=\"mailto:" ++ attrEscaper (urlNormalizer c.Email) ++ "\">" ++
          htmlEscaper c.Email]
      else [] := by
  rw [tags_filter, filter_tags _ (by intro x t hx; simp at hx; rcases hx with rfl | rfl | rfl | rfl <;> rfl)
    (by decide!) (by decide!) (by decide!)]
  have hclose : List.filter (fun l => "a href=\"mailto:".data.isPrefixOf l)
      (splitAcc '<' [] pageClose.data).tail = [] := by decide!
  have hE : List.filter (fun l => "a href=\"mailto:".data.isPrefixOf l)
        (["li>".data, "strong>Email:".data, "/strong> ".data] ++
          ["a href=\"mailto:".data ++ ((attrEscaper (urlNormalizer c.Email)).data ++
            ("\">".data ++ (htmlEscaper c.Email).data)) ++ []] ++ ["/a>".data]) =
      ["a href=\"mailto:".data ++ ((attrEscaper (urlNormalizer c.Email)).data ++
            ("\">".data ++ (htmlEscaper c.Email).data)) ++ []] :=
    filter_three _ _ _ _ _ (by decide) (by simp [List.isPrefixOf]) (by decide)
  have hP : List.filter (fun l => "a href=\"mailto:".data.isPrefixOf l)
        (["li>".data, "strong>Phone:".data, "/strong> ".data] ++
          ["a href=\"tel:".data ++ ((attrEscaper (urlNormalizer c.Phone)).data ++
            ("\">".data ++ (htmlEscaper c.Phone).data)) ++ []] ++ ["/a>".data]) = [] :=
    filter_three _ _ _ _ _ (by decide) (by simp [List.isPrefixOf]) (by decide)
  have hB : List.filter (fun l => "a href=\"mailto:".data.isPrefixOf l)
        (["li>".data, "strong>Bluesky:".data, "/strong> ".data] ++
          ["a href=\"".data ++ (attrEscaper (urlNormalizer (urlFilter c.Bluesky))).data ++
            "\" target=\"_blank\" rel=\"noopener\">Profile".data] ++ ["/a>".data]) = [] :=
    filter_three _ _ _ _ _ (by decide)
      (social_not_mailto _ _ (hs c.Bluesky (by simp)) (by decide)) (by decide)
  have hG : List.filter (fun l => "a href=\"mailto:".data.isPrefixOf l)
        (["li>".data, "strong>GitHub:".data, "/strong> ".data] ++
          ["a href=\"".data ++ (attrEscaper (urlNormalizer (urlFilter c.Github))).data ++
            "\" target=\"_blank\" rel=\"noopener\">Profile".data] ++ ["/a>".data]) = [] :=
    filter_three _ _ _ _ _ (by decide)
      (social_not_mailto _ _ (hs c.Github (by simp)) (by decide)) (by decide)
  have hW : List.filter (fun l => "a href=\"mailto:".data.isPrefixOf l)
        (["li>".data, "strong>WhatsApp:".data, "/strong> ".data] ++
          ["a href=\"".data ++ (attrEscaper (urlNormalizer (urlFilter c.Whatsapp))).data ++
            "\" target=\"_blank\" rel=\"noopener\">Chat".data] ++ ["/a>".data]) = [] :=
    filter_three _ _ _ _ _ (by decide)
      (social_not_mailto _ _ (hs c.Whatsapp (by simp)) (by decide)) (by decide)
  have hF : List.filter (fun l => "a href=\"mailto:".data.isPrefixOf l)
        (["li>".data, "strong>Facebook:".data, "/strong> ".data] ++
          ["a href=\"".data ++ (attrEscaper (urlNormalizer (urlFilter c.Facebook))).data ++
            "\" target=\"_blank\" rel=\"noopener\">Profile".data] ++ ["/a>".data]) = [] :=
    filter_three _ _ _ _ _ (by decide)
      (social_not_mailto _ _ (hs c.Facebook (by simp)) (by decide)) (by decide)
  rw [hE, hP, hB, hG, hW, hF, hclose]
  by_cases he : c.Email = ""
  · simp [he]
  · simp only [ne_eq, he, not_false_eq_true, if_true, ite_self, List.append_nil, List.map_cons,
      List.map_nil, List.cons.injEq, and_true]
    apply String.ext
    simp only [String.data_append, List.append_assoc, List.append_nil]

/-- For the path `/` the body of the home handler is the executed template. -/
theorem homeHandler_root (c : Config) :
    (homeHandler c "/").status = 200 ∧ (homeHandler c "/").text = homeTemplate c := by
  constructor <;> rfl

/-! ## The claims on the home page -/

/-- C8, as stated, fails: a record without email whose Bluesky link is
`mailto:a@b.com` has a `mailto:` link in its page, and the record with the
email `a@b.com` and the same Bluesky link has two `mailto:a@b.com` links. -/
theorem home_mailto_from_social :
    mailtoSocial.Email = "" ∧
    (tags (homeTemplate mailtoSocial)).filter (hasPrefix "a href=\"mailto:") =
      ["a href=\"mailto:a@b.com\" target=\"_blank\" rel=\"noopener\">Profile"] ∧
    mailtoTwice.Email = "a@b.com" ∧
    (tags (homeTemplate mailtoTwice)).filter (hasPrefix "a href=\"mailto:a@b.com\"") =
      ["a href=\"mailto:a@b.com\">a@b.com",
       "a href=\"mailto:a@b.com\" target=\"_blank\" rel=\"noopener\">Profile"] := by
  decide!

/-- C8, amended: when no social field (blueSky, github, whatsapp, facebook)
starts with `mailto:`, the page of a record with empty email has no tag that
opens a `mailto:` link, and the page of a record with the email `a@b.com` has
exactly one, `<a href="mailto:a@b.com">`, followed by the text `a@b.com`. -/
theorem home_mailto_link (c : Config)
    (hs : ∀ f ∈ [c.Bluesky, c.Github, c.Whatsapp, c.Facebook], hasPrefix "mailto:" f = false) :
    (c.Email = "" →
        (tags (homeTemplate c)).filter (hasPrefix "a href=\"mailto:") = [])
    ∧ (c.Email = "a@b.com" →
        (tags (homeTemplate c)).filter (hasPrefix "a href=\"mailto:") =
          ["a href=\"mailto:a@b.com\">a@b.com"]) := by
  constructor
  · intro he
    rw [mailto_tags c hs, he]
    rfl
  · intro he
    rw [mailto_tags c hs, he]
    decide

/-- Witness of the amended C8: the Jane Doe record with the email `a@b.com`. -/
theorem home_mailto_link_witness :
    (tags (homeTemplate abDoe)).filter (hasPrefix "a href=\"mailto:") =
      ["a href=\"mailto:a@b.com\">a@b.com"] :=
  (home_mailto_link abDoe (by decide)).2 rfl

/-- C9: the labelled entries of the page are those of the non-empty fields
among email, phone, blueSky, github, whatsapp, facebook, in that order, with
the labels Email, Phone, Bluesky, GitHub, WhatsApp, Facebook; and after them
the page ends with the closing of the list, the link to `/contact.vcf` and
the closing tags, whichever fields are empty. -/
theorem home_entries (c : Config) :
    (tags (homeTemplate c)).filter (hasPrefix "strong>") =
      ([("Email", c.Email), ("Phone", c.Phone), ("Bluesky", c.Bluesky), ("GitHub", c.Github),
        ("WhatsApp", c.Whatsapp), ("Facebook", c.Facebook)].filter (fun e => e.2 ≠ "")).map
        (fun e => "strong>" ++ e.1 ++ ":")
    ∧ ∃ before : List String,
        tags (homeTemplate c) = before ++
          ["/ul>\n        ",
           "a href=\"/contact.vcf\" class=\"btn\">Download Contact (vCard)",
           "/a>\n    ", "/div>\n", "/body>\n", "/html>\n"]
        ∧ before.filter (hasPrefix "strong>") =
            (tags (homeTemplate c)).filter (hasPrefix "strong>") := by
  constructor
  · rw [strong_tags]
    have key : ∀ (a v : String) (l : List (String × String)),
        (List.filter (fun e => decide (e.2 ≠ "")) ((a, v) :: l)).map
            (fun e => "strong>" ++ e.1 ++ ":") =
          (if v ≠ "" then ["strong>" ++ a ++ ":"] else []) ++
            (List.filter (fun e => decide (e.2 ≠ "")) l).map
              (fun e => "strong>" ++ e.1 ++ ":") := by
      intro a v l
      by_cases hv : v = "" <;> simp [List.filter_cons, hv]
    simp only [key, List.filter_nil, List.map_nil, List.append_nil]
    rfl
  · obtain ⟨X, hX⟩ : ∃ X : String, homeTemplate c = X ++ pageClose := ⟨_, rfl⟩
    have hsplit : tags (homeTemplate c) =
        ((splitAcc '<' [] X.data).dropLast ++
          [(splitAcc '<' [] X.data).getLastD [] ++ "\n        ".data]).map String.mk ++
          ["/ul>\n        ",
           "a href=\"/contact.vcf\" class=\"btn\">Download Contact (vCard)",
           "/a>\n    ", "/div>\n", "/body>\n", "/html>\n"] := by
      have hc : splitAcc '<' [] pageClose.data =
          "\n        ".data :: (["/ul>\n        ".data,
            "a href=\"/contact.vcf\" class=\"btn\">Download Contact (vCard)".data,
            "/a>\n    ".data, "/div>\n".data, "/body>\n".data] ++ ["/html>\n".data]) := by
        decide!
      rw [hX]
      unfold tags splitAt
      rw [String.data_append, splitAcc_text, splitAcc_acc _ _ pageClose.data, hc]
      simp only [List.headD_cons, List.tail_cons, List.map_append, List.map_cons, List.map_nil,
        List.append_assoc, List.cons_append, List.nil_append]
    refine ⟨_, hsplit, ?_⟩
    have hno : List.filter (hasPrefix "strong>")
        ["/ul>\n        ",
           "a href=\"/contact.vcf\" class=\"btn\">Download Contact (vCard)",
           "/a>\n    ", "/div>\n", "/body>\n", "/html>\n"] = [] := by decide
    have := congrArg (List.filter (hasPrefix "strong>")) hsplit
    rw [List.filter_append, hno, List.append_nil] at this
    exact this.symm

/-- Witness of C9: the page of the Jane Doe record has an Email entry and a
GitHub entry, and no other. -/
theorem home_entries_witness :
    (tags (homeTemplate janeDoe)).filter (hasPrefix "strong>") =
      ["strong>Email:", "strong>GitHub:"] :=
  (home_entries janeDoe).1

end ContactShare
